import Mathlib

/-!
Verification development for the mesh vertex picker application (`src/main.py`).

The application keeps a selection of mesh vertices, mutated by three user
events (pick a point, clear, toggle multi-select mode), and mirrors the
selection into an on-screen text overlay and the system clipboard.  The
embedding below models the selection state machine and the two text
presenters.  Nearest-vertex resolution (`mesh.find_closest_point`) and all
rendering calls are owned by the external pyvista library; the pick handler
is therefore modelled from the point where the library has returned the
resolved `vertex_id` and its position.  Coordinates, which the source stores
as floats and only ever formats (never computes with), are modelled as
rationals.
-/

namespace MeshVertexPicker

/-- A 3D coordinate, as stored in the numpy arrays of the source. -/
structure Vec3 where
  x : ℚ
  y : ℚ
  z : ℚ
deriving DecidableEq, Repr

instance : Inhabited Vec3 := ⟨⟨0, 0, 0⟩⟩

/-- One record of `self._selected_points` (see `_select_vertex`,
`src/main.py:110`): the resolved vertex id, the raw picked coordinate and
the resolved vertex position. -/
structure SelPoint where
  vertex_id : Int
  picked_point : Vec3
  vertex_pos : Vec3
deriving DecidableEq, Repr

instance : Inhabited SelPoint := ⟨⟨0, default, default⟩⟩

/-- The mutable state of the application relevant to selection:
`self._selected_points` and `self._multi_select_mode`
(`src/main.py:24-26`).  The actor lists and text actor are pure rendering
artefacts and carry no further selection information. -/
structure PickerState where
  selected_points : List SelPoint
  multi_select_mode : Bool
deriving DecidableEq, Repr

/-- The initial state: empty selection, multi-select off (`src/main.py:24-26`). -/
def initState : PickerState := ⟨[], false⟩

/-- The vertex ids currently recorded in the selection, in display order. -/
def selectedIds (st : PickerState) : List Int :=
  st.selected_points.map (fun sp => sp.vertex_id)

/-- `_select_vertex` (`src/main.py:101-123`): append a new record to the
selection (the highlight actor it also adds is rendering only). -/
def select_vertex (vid : Int) (pp vp : Vec3) (st : PickerState) : PickerState :=
  { st with selected_points := st.selected_points ++ [⟨vid, pp, vp⟩] }

/-- `_deselect_vertex` (`src/main.py:125-149`): filter out every record with
the given vertex id; only when something was actually removed does it clear
and rebuild, ending with `_selected_points = new_selected_points`. -/
def deselect_vertex (vid : Int) (st : PickerState) : PickerState :=
  let old := st.selected_points
  let nw := old.filter (fun sp => sp.vertex_id != vid)
  if nw.length < old.length then { st with selected_points := nw } else st

/-- `_clear_selected_vertices` (`src/main.py:151-157`): empty the selection. -/
def clear_selected_vertices (st : PickerState) : PickerState :=
  { st with selected_points := [] }

/-- `_on_toggle_multi_select` (`src/main.py:192-197`): flip the mode flag
(the rest of the handler only prints and redraws the overlay). -/
def on_toggle_multi_select (st : PickerState) : PickerState :=
  { st with multi_select_mode := !st.multi_select_mode }

/-- `_on_clear_selected_vertices` (`src/main.py:199-202`): clear, then
redraw the overlay (redraw has no effect on the state). -/
def on_clear_selected_vertices (st : PickerState) : PickerState :=
  clear_selected_vertices st

/-- `_on_pick_point` (`src/main.py:223-254`), modelled from the point where
`self._mesh.find_closest_point` has returned `vertex_id` (and
`self._mesh.points[vertex_id]` the position `vp`).  A result of `-1` means
no vertex was found and the handler returns without touching the state.
Otherwise: a pick on an already-selected vertex deselects it; with
multi-select off the selection is cleared before the new vertex is added. -/
def on_pick_point (vid : Int) (pp vp : Vec3) (st : PickerState) : PickerState :=
  if vid = -1 then st
  else
    let already := st.selected_points.any (fun sp => sp.vertex_id == vid)
    if already then deselect_vertex vid st
    else
      let st1 := if !st.multi_select_mode then clear_selected_vertices st else st
      select_vertex vid pp vp st1

/-! ### Text presenters

Embedding of Python string formatting: `str(i)` on an integer is plain
decimal rendering, and the format spec `:.5f` renders a number with exactly
five digits after the decimal point.  Rounding of the rational coordinate to
five decimals is modelled as round-half-up on the absolute value; the
claims under verification do not depend on the tie-breaking direction. -/

/-- Python `str` on a nonnegative integer: decimal digit rendering. -/
def natToStr (n : Nat) : String :=
  Nat.repr n

/-- Python `str` on an integer: a minus sign followed by the digits when
negative. -/
def intToStr (i : Int) : String :=
  if i < 0 then "-" ++ natToStr i.natAbs else natToStr i.natAbs

/-- Pad a digit string on the left with zeros to five characters (the
fractional part of a `:.5f` rendering). -/
def pad5 (s : String) : String :=
  String.mk (List.replicate (5 - s.length) '0') ++ s

/-- Python `:.5f` float formatting on the rational model of a coordinate:
sign, integer part, dot, exactly five fractional digits.  The scaled value
`round(|q| * 100000)` is computed on the numerator and denominator directly:
for `a = na / d ≥ 0`, `floor(a * 100000 + 1/2) = (2 * na * 100000 + d) / (2 * d)`
in integer division. -/
def fmt5 (q : ℚ) : String :=
  let na := q.num.natAbs
  let d := q.den
  let m : Nat := (2 * na * 100000 + d) / (2 * d)
  (if q.num < 0 then "-" else "") ++
    natToStr (m / 100000) ++ "." ++ pad5 (natToStr (m % 100000))

/-- One entry line of the on-screen overlay
(`src/main.py:171`): two-space indent, 1-based index, vertex id, position
to five decimal places, newline. -/
def overlayEntryLine (i : Nat) (sp : SelPoint) : String :=
  "  #" ++ natToStr (i + 1) ++ " - ID: " ++ intToStr sp.vertex_id ++
    ", Pos: (" ++ fmt5 sp.vertex_pos.x ++ ", " ++ fmt5 sp.vertex_pos.y ++
    ", " ++ fmt5 sp.vertex_pos.z ++ ")\n"

/-- One entry line of the clipboard serialization
(`src/main.py:213`): same fields and five-decimal formatting as the overlay
entry, but with no leading indent. -/
def clipEntryLine (i : Nat) (sp : SelPoint) : String :=
  "#" ++ natToStr (i + 1) ++ " - ID: " ++ intToStr sp.vertex_id ++
    ", Pos: (" ++ fmt5 sp.vertex_pos.x ++ ", " ++ fmt5 sp.vertex_pos.y ++
    ", " ++ fmt5 sp.vertex_pos.z ++ ")\n"

/-- Concatenation of per-entry lines over an indexed entry list (closed-form
counterpart of the imperative accumulation loops). -/
def entriesText (f : Nat → SelPoint → String) (l : List (Nat × SelPoint)) : String :=
  (l.map (fun p => f p.1 p.2)).foldr (fun a b => a ++ b) ""

/-- `_update_text_display` (`src/main.py:159-190`), the overlay text: mode
line; if the selection is nonempty, a count line and one entry line for each
`i < min n 20` (indexing into the selection as the Python loop does), then,
when more than 20 are selected, a line giving how many were omitted;
otherwise a no-selection line.  (The actor replacement it then performs is
rendering only.) -/
def update_text_display (st : PickerState) : String :=
  let n := st.selected_points.length
  let t1 := "Multi-select mode: " ++ (if st.multi_select_mode then "ON" else "OFF") ++ "\n"
  if 0 < n then
    let t2 := t1 ++ "Selected " ++ natToStr n ++ " vertices:\n"
    let t3 := (List.range (min n 20)).foldl
      (fun acc i => acc ++ overlayEntryLine i (st.selected_points.getD i default)) t2
    if 20 < n then t3 ++ "  (and " ++ natToStr (n - 20) ++ " more...)\n" else t3
  else
    t1 ++ "(No vertices selected)\n"

/-- The clipboard serialization built by `_on_copy_selected_vertex_info`
(`src/main.py:211-213`): count header, then one line per selected entry,
iterating `enumerate(self._selected_points)` with no truncation. -/
def clipboard_text (st : PickerState) : String :=
  st.selected_points.enum.foldl (fun acc p => acc ++ clipEntryLine p.1 p.2)
    ("Selected " ++ natToStr st.selected_points.length ++ " vertices\n")

/-- Console message printed on a successful copy (`src/main.py:218`). -/
def copiedMsg (st : PickerState) : String :=
  "Copied " ++ natToStr st.selected_points.length ++ " vertex info(s) to clipboard."

/-- Console message printed when `pyperclip.copy` raises
(`src/main.py:220`; the exception detail interpolated by the source is
abstracted away). -/
def clipFailMsg : String := "Failed to copy to clipboard."

/-- `_on_copy_selected_vertex_info` (`src/main.py:204-221`).  The system
clipboard is modelled as a string threaded through the handler, and the
possibility that `pyperclip.copy` raises as the flag `ok`.  Result: the
state (which the handler never mutates), the clipboard contents after the
event, and the console lines printed.  With an empty selection the handler
returns early; on copy failure the exception is caught and the serialized
text is printed instead. -/
def on_copy_selected_vertex_info (ok : Bool) (st : PickerState) (clip : String) :
    PickerState × String × List String :=
  if st.selected_points.isEmpty then
    (st, clip, ["No vertices selected to copy."])
  else
    let txt := clipboard_text st
    if ok then (st, txt, [copiedMsg st])
    else (st, clip, [clipFailMsg, txt])

/-- Console message printed when the pick handler catches an exception
(`src/main.py:254`; exception detail abstracted). -/
def pickErrMsg : String := "Error occurred during point selection."

/-- `_on_pick_point` with its `try`/`except` boundary (`src/main.py:229-254`)
and explicit error injection at the two external calls that bracket the
selection mutation: `failFind` makes `find_closest_point` raise (before any
mutation), `failDisplay` makes `_update_text_display` raise (after the
mutation is complete).  Result: the state after the event and the console
lines printed.  The handler is total: every injected exception is caught at
the boundary. -/
def on_pick_point_handled (failFind failDisplay : Bool) (vid : Int) (pp vp : Vec3)
    (st : PickerState) : PickerState × List String :=
  if failFind then (st, [pickErrMsg])
  else if vid = -1 then (st, ["No vertex found close to the picked point."])
  else
    let st1 := on_pick_point vid pp vp st
    if failDisplay then (st1, [pickErrMsg]) else (st1, [])

/-- The user events that mutate selection state: pick (with resolved vertex
id and coordinates), clear (`r` key) and mode toggle (`m` key). -/
inductive Op where
  | pick (vid : Int) (pp vp : Vec3) : Op
  | clear : Op
  | toggle : Op
deriving DecidableEq, Repr

/-- Dispatch one event to its handler. -/
def step (st : PickerState) (op : Op) : PickerState :=
  match op with
  | .pick vid pp vp => on_pick_point vid pp vp st
  | .clear => on_clear_selected_vertices st
  | .toggle => on_toggle_multi_select st

/-- Run a sequence of events from a state. -/
def run (st : PickerState) (ops : List Op) : PickerState :=
  ops.foldl step st

/-! ### Helper lemmas -/

/-- The `already_selected` test of `_on_pick_point` agrees with membership
in the recorded vertex ids. -/
lemma any_id_iff (st : PickerState) (vid : Int) :
    (st.selected_points.any (fun sp => sp.vertex_id == vid)) = true ↔
      vid ∈ selectedIds st := by
  simp only [List.any_eq_true, beq_iff_eq, selectedIds, List.mem_map]

/-- Filtering drops at least one element when a member fails the predicate. -/
lemma length_filter_lt_of_mem {α : Type} {p : α → Bool} {l : List α} {x : α}
    (hx : x ∈ l) (hpx : p x = false) :
    (l.filter p).length < l.length := by
  induction l with
  | nil => cases hx
  | cons a l ih =>
    rcases List.mem_cons.mp hx with rfl | hx'
    · rw [List.filter_cons, hpx]
      exact Nat.lt_succ_of_le (List.length_filter_le p l)
    · by_cases hpa : p a
      · rw [List.filter_cons, if_pos hpa, List.length_cons, List.length_cons]
        exact Nat.succ_lt_succ (ih hx')
      · rw [List.filter_cons, if_neg hpa, List.length_cons]
        exact Nat.lt_succ_of_lt (ih hx')

/-- On a vertex id that is recorded, `deselect_vertex` takes the rebuild
branch and keeps exactly the records with a different id. -/
lemma deselect_vertex_of_mem {vid : Int} {st : PickerState}
    (h : vid ∈ selectedIds st) :
    deselect_vertex vid st =
      { st with selected_points :=
          st.selected_points.filter (fun sp => sp.vertex_id != vid) } := by
  obtain ⟨sp, hsp, hid⟩ := by simpa [selectedIds, List.mem_map] using h
  have hlt : (st.selected_points.filter (fun sp => sp.vertex_id != vid)).length <
      st.selected_points.length :=
    length_filter_lt_of_mem hsp (by simp [hid])
  simp [deselect_vertex, hlt]

/-- Unfolding of the pick handler on a fresh vertex id. -/
lemma on_pick_point_not_mem {vid : Int} (pp vp : Vec3) {st : PickerState}
    (hvid : vid ≠ -1) (hmem : vid ∉ selectedIds st) :
    on_pick_point vid pp vp st =
      select_vertex vid pp vp
        (if !st.multi_select_mode then clear_selected_vertices st else st) := by
  have hany : (st.selected_points.any (fun sp => sp.vertex_id == vid)) = false := by
    rw [Bool.eq_false_iff]
    intro hc
    exact hmem ((any_id_iff st vid).mp hc)
  simp [on_pick_point, hvid, hany]

/-! ### Claims -/

/-- C1: For every selection state and every vertex id not currently in the
selection, handling a pick event for that vertex while multi-select mode is
off results in the selection containing exactly that one vertex, regardless
of the prior selection contents.  (The vertex id is one actually resolved by
the library, hence not the `-1` not-found sentinel.) -/
theorem pick_single_replaces (vid : Int) (pp vp : Vec3) (st : PickerState)
    (hvid : vid ≠ -1) (hmode : st.multi_select_mode = false)
    (hmem : vid ∉ selectedIds st) :
    (on_pick_point vid pp vp st).selected_points = [⟨vid, pp, vp⟩] := by
  rw [on_pick_point_not_mem pp vp hvid hmem]
  simp [hmode, select_vertex, clear_selected_vertices]

/-- Witness for C1 at a concrete input. -/
theorem pick_single_replaces_witness :
    (5 : Int) ≠ -1 ∧
      (on_pick_point 5 ⟨1, 2, 3⟩ ⟨1, 2, 3⟩
          ⟨[⟨3, ⟨0, 0, 0⟩, ⟨0, 0, 0⟩⟩], false⟩).selected_points =
        [⟨5, ⟨1, 2, 3⟩, ⟨1, 2, 3⟩⟩] :=
  ⟨by decide,
    pick_single_replaces 5 ⟨1, 2, 3⟩ ⟨1, 2, 3⟩ ⟨[⟨3, ⟨0, 0, 0⟩, ⟨0, 0, 0⟩⟩], false⟩
      (by decide) rfl (by decide)⟩

/-- C2: For every selection state and mode flag value, handling a pick event
for a vertex id that is already in the selection removes that vertex from
the selection (keeping exactly the records with a different id), regardless
of whether multi-select mode is on or off. -/
theorem pick_already_selected_removes (vid : Int) (pp vp : Vec3) (st : PickerState)
    (hvid : vid ≠ -1) (hmem : vid ∈ selectedIds st) :
    (on_pick_point vid pp vp st).selected_points =
        st.selected_points.filter (fun sp => sp.vertex_id != vid) ∧
      vid ∉ selectedIds (on_pick_point vid pp vp st) := by
  have hany := (any_id_iff st vid).mpr hmem
  have hrw : on_pick_point vid pp vp st = deselect_vertex vid st := by
    simp [on_pick_point, hvid, hany]
  rw [hrw, deselect_vertex_of_mem hmem]
  refine ⟨rfl, ?_⟩
  simp [selectedIds, List.mem_map, List.mem_filter]

/-- Witness for C2 at a concrete input. -/
theorem pick_already_selected_removes_witness :
    (3 : Int) ∈ selectedIds ⟨[⟨3, ⟨0, 0, 0⟩, ⟨0, 0, 0⟩⟩, ⟨5, ⟨1, 1, 1⟩, ⟨1, 1, 1⟩⟩], true⟩ ∧
      ((on_pick_point 3 ⟨2, 2, 2⟩ ⟨2, 2, 2⟩
            ⟨[⟨3, ⟨0, 0, 0⟩, ⟨0, 0, 0⟩⟩, ⟨5, ⟨1, 1, 1⟩, ⟨1, 1, 1⟩⟩], true⟩).selected_points =
          [⟨5, ⟨1, 1, 1⟩, ⟨1, 1, 1⟩⟩] ∧
        (3 : Int) ∉ selectedIds (on_pick_point 3 ⟨2, 2, 2⟩ ⟨2, 2, 2⟩
          ⟨[⟨3, ⟨0, 0, 0⟩, ⟨0, 0, 0⟩⟩, ⟨5, ⟨1, 1, 1⟩, ⟨1, 1, 1⟩⟩], true⟩)) :=
  ⟨by decide,
    pick_already_selected_removes 3 ⟨2, 2, 2⟩ ⟨2, 2, 2⟩
      ⟨[⟨3, ⟨0, 0, 0⟩, ⟨0, 0, 0⟩⟩, ⟨5, ⟨1, 1, 1⟩, ⟨1, 1, 1⟩⟩], true⟩
      (by decide) (by decide)⟩

/-- C3: For every selection state and every vertex id not currently in the
selection, handling a pick event for that vertex while multi-select mode is
on results in the prior selection with that vertex appended at the end. -/
theorem pick_multi_appends (vid : Int) (pp vp : Vec3) (st : PickerState)
    (hvid : vid ≠ -1) (hmode : st.multi_select_mode = true)
    (hmem : vid ∉ selectedIds st) :
    (on_pick_point vid pp vp st).selected_points =
      st.selected_points ++ [⟨vid, pp, vp⟩] := by
  rw [on_pick_point_not_mem pp vp hvid hmem]
  simp [hmode, select_vertex]

/-- Witness for C3 at a concrete input. -/
theorem pick_multi_appends_witness :
    (5 : Int) ∉ selectedIds ⟨[⟨3, ⟨0, 0, 0⟩, ⟨0, 0, 0⟩⟩], true⟩ ∧
      (on_pick_point 5 ⟨1, 2, 3⟩ ⟨1, 2, 3⟩
          ⟨[⟨3, ⟨0, 0, 0⟩, ⟨0, 0, 0⟩⟩], true⟩).selected_points =
        [⟨3, ⟨0, 0, 0⟩, ⟨0, 0, 0⟩⟩] ++ [⟨5, ⟨1, 2, 3⟩, ⟨1, 2, 3⟩⟩] :=
  ⟨by decide,
    pick_multi_appends 5 ⟨1, 2, 3⟩ ⟨1, 2, 3⟩ ⟨[⟨3, ⟨0, 0, 0⟩, ⟨0, 0, 0⟩⟩], true⟩
      (by decide) rfl (by decide)⟩

/-- C4: For every selection state and mode flag value, the clear action
results in an empty selection. -/
theorem clear_yields_empty (st : PickerState) :
    (on_clear_selected_vertices st).selected_points = [] := rfl

/-- C6: For every selection state, toggling multi-select mode flips the
mode flag and leaves the selection contents (membership and order)
unchanged. -/
theorem toggle_preserves_selection (st : PickerState) :
    (on_toggle_multi_select st).multi_select_mode = !st.multi_select_mode ∧
      (on_toggle_multi_select st).selected_points = st.selected_points :=
  ⟨rfl, rfl⟩

/-- One event preserves distinctness of the recorded vertex ids. -/
lemma nodup_step (st : PickerState) (op : Op)
    (h : (selectedIds st).Nodup) : (selectedIds (step st op)).Nodup := by
  cases op with
  | clear => simp [step, on_clear_selected_vertices, clear_selected_vertices, selectedIds]
  | toggle => simpa [step, on_toggle_multi_select, selectedIds] using h
  | pick vid pp vp =>
    by_cases hvid : vid = -1
    · simpa [step, on_pick_point, hvid] using h
    · by_cases hmem : vid ∈ selectedIds st
      · have hany := (any_id_iff st vid).mpr hmem
        have hrw : step st (.pick vid pp vp) = deselect_vertex vid st := by
          simp [step, on_pick_point, hvid, hany]
        rw [hrw, deselect_vertex_of_mem hmem]
        exact ((List.filter_sublist _).map _).nodup h
      · rw [show step st (.pick vid pp vp) = _ from
          on_pick_point_not_mem pp vp hvid hmem]
        cases hmode : st.multi_select_mode with
        | false =>
          simp [hmode, select_vertex, clear_selected_vertices, selectedIds]
        | true =>
          have : selectedIds (select_vertex vid pp vp st) =
              selectedIds st ++ [vid] := by
            simp [select_vertex, selectedIds]
          simp only [hmode, Bool.not_true, Bool.false_eq_true, if_false, this]
          rw [List.nodup_append]
          refine ⟨h, List.nodup_singleton _, ?_⟩
          intro a ha hav
          exact hmem (List.mem_singleton.mp hav ▸ ha)

/-- C5: After every sequence of pick, clear, and mode-toggle operations
starting from the empty selection, the vertex ids recorded in the selection
are pairwise distinct. -/
theorem run_selectedIds_nodup (ops : List Op) :
    (selectedIds (run initState ops)).Nodup := by
  suffices h : ∀ (st : PickerState), (selectedIds st).Nodup →
      (selectedIds (run st ops)).Nodup from
    h initState (by simp [initState, selectedIds])
  induction ops with
  | nil => exact fun st h => h
  | cons op ops ih =>
    intro st h
    exact ih (step st op) (nodup_step st op h)

/-- C10: When the selection is empty, the clipboard-copy action leaves the
clipboard contents untouched and only prints the nothing-to-copy console
message (and, trivially, does not change the state). -/
theorem copy_empty_leaves_clipboard (ok : Bool) (st : PickerState) (clip : String)
    (h : st.selected_points = []) :
    on_copy_selected_vertex_info ok st clip =
      (st, clip, ["No vertices selected to copy."]) := by
  simp [on_copy_selected_vertex_info, h]

/-- Witness for C10 at a concrete input. -/
theorem copy_empty_leaves_clipboard_witness :
    initState.selected_points = [] ∧
      on_copy_selected_vertex_info true initState "previous contents" =
        (initState, "previous contents", ["No vertices selected to copy."]) :=
  ⟨rfl, copy_empty_leaves_clipboard true initState "previous contents" rfl⟩

/-- An accumulation loop `acc = acc ++ line` equals the initial text
followed by the concatenation of the lines. -/
lemma foldl_append_eq {α : Type} (g : α → String) (l : List α) (t : String) :
    l.foldl (fun acc x => acc ++ g x) t = t ++ (l.map g).foldr (fun a b => a ++ b) "" := by
  induction l generalizing t with
  | nil => simp
  | cons a l ih => simp [ih, String.append_assoc]

/-- Indexing a list over `range (min length k)`, as the Python display loop
does, enumerates exactly the first `k` elements. -/
lemma range_map_getD_eq_enum_take (l : List SelPoint) (k : Nat)
    (f : Nat → SelPoint → String) :
    (List.range (min l.length k)).map (fun i => f i (l.getD i default)) =
      (l.take k).enum.map (fun p => f p.1 p.2) := by
  apply List.ext_getElem
  · simp [Nat.min_comm]
  · intro i h1 h2
    simp only [List.getElem_map, List.getElem_range, List.enum_eq_enumFrom,
      List.getElem_enumFrom, Nat.zero_add, List.getElem_take]
    have hi : i < l.length := by
      simp at h1
      omega
    congr 1
    simp [List.getD_eq_getElem?_getD, List.getElem?_eq_getElem hi]

/-- C7: For every selection, the overlay text is the mode line followed,
when the selection is nonempty, by the count line, one formatted entry line
for each of the first `min n 20` selected records in order — so at most 20
entries, each rendered by `overlayEntryLine` as `#index - ID: vertex_id,
Pos: (x, y, z)` with coordinates to five decimal places — and, exactly when
more than 20 are selected, a suffix line stating that `n - 20` more were
omitted. -/
theorem overlay_display_spec (st : PickerState) :
    (update_text_display st =
      "Multi-select mode: " ++ (if st.multi_select_mode then "ON" else "OFF") ++ "\n" ++
        (if st.selected_points.length = 0 then "(No vertices selected)\n"
         else
          "Selected " ++ natToStr st.selected_points.length ++ " vertices:\n" ++
            entriesText overlayEntryLine (st.selected_points.take 20).enum ++
            (if 20 < st.selected_points.length then
              "  (and " ++ natToStr (st.selected_points.length - 20) ++ " more...)\n"
             else ""))) ∧
      (st.selected_points.take 20).enum.length = min st.selected_points.length 20 ∧
      (st.selected_points.take 20).enum.length ≤ 20 := by
  refine ⟨?_, by simp [Nat.min_comm], by simp⟩
  simp only [update_text_display]
  by_cases h0 : st.selected_points.length = 0
  · simp [h0]
  · have hpos : 0 < st.selected_points.length := Nat.pos_of_ne_zero h0
    rw [if_pos hpos, if_neg h0]
    rw [foldl_append_eq (fun i => overlayEntryLine i (st.selected_points.getD i default)),
      range_map_getD_eq_enum_take st.selected_points 20 overlayEntryLine]
    by_cases h20 : 20 < st.selected_points.length
    · rw [if_pos h20, if_pos h20]
      apply String.ext
      simp [entriesText]
    · rw [if_neg h20, if_neg h20]
      apply String.ext
      simp [entriesText]

/-- C8 counterexample: the clipboard entry line is not character-for-
character the overlay entry line for the same record — the overlay line
carries a two-space display indent that the clipboard line does not. -/
theorem overlay_clip_entry_ne :
    overlayEntryLine 0 ⟨0, ⟨0, 0, 0⟩, ⟨0, 0, 0⟩⟩ ≠
      clipEntryLine 0 ⟨0, ⟨0, 0, 0⟩, ⟨0, 0, 0⟩⟩ := by decide

/-- C8 (amended): the clipboard-copy action serializes every selected entry
with no truncation (no 20-entry limit), each entry in the same textual
format as the corresponding overlay entry except for the overlay's leading
two-space indent; the serialized text is written to the clipboard on
success, and if writing fails the text is printed to the console instead
and the handler returns normally. -/
theorem clipboard_copy_spec (st : PickerState) (clip : String)
    (h : st.selected_points ≠ []) :
    clipboard_text st =
        "Selected " ++ natToStr st.selected_points.length ++ " vertices\n" ++
          entriesText clipEntryLine st.selected_points.enum ∧
      (∀ (i : Nat) (sp : SelPoint),
        overlayEntryLine i sp = "  " ++ clipEntryLine i sp) ∧
      on_copy_selected_vertex_info true st clip =
        (st, clipboard_text st, [copiedMsg st]) ∧
      on_copy_selected_vertex_info false st clip =
        (st, clip, [clipFailMsg, clipboard_text st]) := by
  have hemp : st.selected_points.isEmpty = false := by
    cases hl : st.selected_points with
    | nil => exact absurd hl h
    | cons a l => rfl
  refine ⟨?_, ?_, ?_, ?_⟩
  · unfold clipboard_text entriesText
    rw [foldl_append_eq (α := Nat × SelPoint) (fun p => clipEntryLine p.1 p.2)]
  · intro i sp
    apply String.ext
    simp [overlayEntryLine, clipEntryLine]
  · simp [on_copy_selected_vertex_info, hemp]
  · simp [on_copy_selected_vertex_info, hemp]

/-- Witness for C8 at a concrete input: one selected vertex, clipboard
write fails, the text is printed and the old clipboard kept. -/
theorem clipboard_copy_spec_witness :
    (⟨[⟨3, ⟨1, 1, 1⟩, ⟨1, 1, 1⟩⟩], false⟩ : PickerState).selected_points ≠ [] ∧
      on_copy_selected_vertex_info false ⟨[⟨3, ⟨1, 1, 1⟩, ⟨1, 1, 1⟩⟩], false⟩ "old" =
        (⟨[⟨3, ⟨1, 1, 1⟩, ⟨1, 1, 1⟩⟩], false⟩, "old",
          [clipFailMsg, clipboard_text ⟨[⟨3, ⟨1, 1, 1⟩, ⟨1, 1, 1⟩⟩], false⟩]) :=
  ⟨by decide,
    (clipboard_copy_spec ⟨[⟨3, ⟨1, 1, 1⟩, ⟨1, 1, 1⟩⟩], false⟩ "old" (by decide)).2.2.2⟩

/-- C9 counterexample: a pick event during which the display update raises
is caught and logged, yet the selection after the event differs from the
selection before it — the handler is not atomic on error. -/
theorem pick_error_state_changed :
    (on_pick_point_handled false true 0 ⟨0, 0, 0⟩ ⟨0, 0, 0⟩ initState).2 = [pickErrMsg] ∧
      (on_pick_point_handled false true 0 ⟨0, 0, 0⟩ ⟨0, 0, 0⟩ initState).1 ≠ initState := by
  exact ⟨by decide, by decide⟩

/-- C9 (amended): every pick or clipboard event error is caught at the
event boundary and a message is logged, and the application keeps running
(the handlers are total); an error raised during vertex resolution — before
any mutation — leaves the state exactly as it was, while an error raised
during the display update leaves the already-completed selection mutation
in place; clipboard events never change the selection state or mode flag. -/
theorem event_error_handling_spec (ff fd : Bool) (vid : Int) (pp vp : Vec3)
    (st : PickerState) (ok : Bool) (clip : String) :
    (ff = true → on_pick_point_handled ff fd vid pp vp st = (st, [pickErrMsg])) ∧
      (ff = false → vid ≠ -1 → fd = true →
        on_pick_point_handled ff fd vid pp vp st =
          (on_pick_point vid pp vp st, [pickErrMsg])) ∧
      (on_copy_selected_vertex_info ok st clip).1 = st := by
  refine ⟨?_, ?_, ?_⟩
  · intro hff
    simp [on_pick_point_handled, hff]
  · intro hff hvid hfd
    simp [on_pick_point_handled, hff, hvid, hfd]
  · unfold on_copy_selected_vertex_info
    by_cases hemp : st.selected_points.isEmpty
    · simp [hemp]
    · cases ok <;> simp [hemp]

/-- Witness for C9 at a concrete input: an error injected at vertex
resolution is caught, logged, and leaves the state unchanged. -/
theorem event_error_handling_spec_witness :
    on_pick_point_handled true false 7 ⟨0, 0, 0⟩ ⟨0, 0, 0⟩ initState =
      (initState, [pickErrMsg]) :=
  (event_error_handling_spec true false 7 ⟨0, 0, 0⟩ ⟨0, 0, 0⟩ initState true "").1 rfl

end MeshVertexPicker
